import Mathlib

/-!
Shallow embedding of the extension-host quick-input layer
(`src/vs/platform/quickinput/common/quickInput.ts`): the `ExtHostQuickInput`
session state machine with its deferred update batcher, the `ExtHostQuickPick`
item list and handle table, and the `ExtHostQuickOpen` one-shot
`showQuickPick` / `showInput` flows with their global callback slots.

Property values staged into a pending update are modelled by `Value`; a
pending update (`TransferQuickInput`) is the session id plus an association
list of changed fields in which `Object.assign` semantics (later write to the
same key overrides) is realised by `setKey`.
-/

namespace QuickInput

/-- A transformed pick item as staged for the host (`MyQuickPickItems`):
only label, description, handle, detail and picked survive the transform. -/
structure TransferItem where
  label : String
  description : Option String
  handle : Nat
  detail : Option String
  picked : Option Bool
deriving DecidableEq, Repr

/-- A property value that can be staged into a pending update. -/
inductive Value where
  | bool (b : Bool)
  | str (s : String)
  | items (is : List TransferItem)
deriving DecidableEq, Repr

/-- The pending-update buffer `TransferQuickInput`: initialised to
`{ id: this._id }`, i.e. the session id plus no changed properties. -/
structure TransferQuickInput where
  id : Nat
  props : List (String × Value)
deriving DecidableEq, Repr

/-- `u[k]`: first binding of `k` in the association list. -/
def lookupProp (u : List (String × Value)) (k : String) : Option Value :=
  (u.find? fun kv => kv.1 == k).map fun kv => kv.2

/-- `u[k] = v` with JavaScript object-key semantics: the key ends up bound
exactly once, to `v`. -/
def setKey (u : List (String × Value)) (k : String) (v : Value) :
    List (String × Value) :=
  (u.filter fun kv => kv.1 != k) ++ [(k, v)]

/-- `Object.assign(target, source)`: each binding of `source`, in order,
overrides the binding of the same key in `target`. -/
def assignProps (target source : List (String × Value)) :
    List (String × Value) :=
  source.foldl (fun acc kv => setKey acc kv.1 kv.2) target

/-- State of one `ExtHostQuickInput` session: local cached flags, the
pending-update buffer, whether an `_updateTimeout` flush timer is scheduled,
and the disposed flag. -/
structure Session where
  id : Nat
  visible : Bool
  enabled : Bool
  busy : Bool
  pendingUpdate : TransferQuickInput
  timerPending : Bool
  disposed : Bool
deriving DecidableEq, Repr

/-- A freshly constructed session (`new ExtHostQuickInput(...)` with id `n`):
invisible, enabled, not busy, pending update `{ id: n }`, no timer, not
disposed. -/
def Session.fresh (n : Nat) : Session :=
  { id := n, visible := false, enabled := true, busy := false
    pendingUpdate := { id := n, props := [] }, timerPending := false
    disposed := false }

/-- Outbound effects of a session: `$createOrUpdate`, `$dispose`, the
`_onDispose` registry callback, and an `onDidHide` emitter firing.  The code
never produces `hiddenFired`: `dispose` disposes the emitter without firing
it. -/
inductive Effect where
  | createOrUpdate (u : TransferQuickInput)
  | disposeCall (id : Nat)
  | unregister (id : Nat)
  | hiddenFired (id : Nat)
deriving DecidableEq, Repr

/-- `ExtHostQuickInput.update(properties)`: return early when disposed;
otherwise `Object.assign` the properties into the pending buffer; when not
visible return without scheduling; otherwise clear and re-arm the single
zero-delay flush timer. -/
def Session.update (s : Session) (properties : List (String × Value)) :
    Session :=
  if s.disposed then s
  else
    let s := { s with
      pendingUpdate := { s.pendingUpdate with
        props := assignProps s.pendingUpdate.props properties } }
    if !s.visible then s
    else { s with timerPending := true }

/-- The `setTimeout` callback firing (one turn later): nothing if no timer is
armed; the armed callback returns early when disposed; otherwise it sends
`$createOrUpdate(pendingUpdate)` and resets the buffer to `{ id: this._id }`. -/
def Session.fireTimer (s : Session) : Session × List Effect :=
  if !s.timerPending then (s, [])
  else if s.disposed then ({ s with timerPending := false }, [])
  else ({ s with
            timerPending := false
            pendingUpdate := { id := s.id, props := [] } },
        [Effect.createOrUpdate s.pendingUpdate])

/-- `set enabled`: local state first, then `update({ enabled })`. -/
def Session.setEnabled (s : Session) (b : Bool) : Session :=
  Session.update { s with enabled := b } [("enabled", Value.bool b)]

/-- `set busy`: local state first, then `update({ busy })`. -/
def Session.setBusy (s : Session) (b : Bool) : Session :=
  Session.update { s with busy := b } [("busy", Value.bool b)]

/-- `show()`: `_visible = true`, then `update({ visible: true })`. -/
def Session.show (s : Session) : Session :=
  Session.update { s with visible := true } [("visible", Value.bool true)]

/-- `hide()`: `_visible = false`, then `update({ visible: false })`.  Note
the visibility flag is cleared before `update` checks it. -/
def Session.hide (s : Session) : Session :=
  Session.update { s with visible := false } [("visible", Value.bool false)]

/-- `dispose()`: a second call returns at the `_disposed` guard; the first
call marks disposed, disposes the hide emitter (without firing it), cancels
the flush timer, unregisters via `_onDispose()` and sends `$dispose(id)`. -/
def Session.dispose (s : Session) : Session × List Effect :=
  if s.disposed then (s, [])
  else ({ s with disposed := true, timerPending := false },
        [Effect.unregister s.id, Effect.disposeCall s.id])

/-- The events the single-threaded event loop can deliver to a session. -/
inductive Op where
  | setEnabled (b : Bool)
  | setBusy (b : Bool)
  | show
  | hide
  | fireTimer
  | dispose
deriving DecidableEq, Repr

/-- One event-loop step on a session, together with the outbound effects it
produces. -/
def step (s : Session) : Op → Session × List Effect
  | Op.setEnabled b => (s.setEnabled b, [])
  | Op.setBusy b => (s.setBusy b, [])
  | Op.show => (s.show, [])
  | Op.hide => (s.hide, [])
  | Op.fireTimer => s.fireTimer
  | Op.dispose => s.dispose

/-- Run a sequence of events, accumulating effects in order. -/
def run (s : Session) : List Op → Session × List Effect
  | [] => (s, [])
  | op :: ops =>
      let r1 := step s op
      let r2 := run r1.1 ops
      (r2.1, r1.2 ++ r2.2)

/-- The property write performed by a setter event, if any. -/
def opWrite : Op → Option (String × Value)
  | Op.setEnabled b => some ("enabled", Value.bool b)
  | Op.setBusy b => some ("busy", Value.bool b)
  | _ => none

/-- The property writes of a sequence of events, in order. -/
def writesOf (ops : List Op) : List (String × Value) :=
  ops.filterMap opWrite

/-- The last value written to field `k` by the events `ops`, if any. -/
def lastWrite (ops : List Op) (k : String) : Option Value :=
  ((writesOf ops).reverse.find? fun kv => kv.1 == k).map fun kv => kv.2

/-! ### ExtHostQuickPick: item list and handle table -/

/-- A caller-side `QuickPickItem`.  The `id` field stands for any field of
the caller's object beyond label/description/detail/picked; the transform
staged for the host drops it. -/
structure QPItem where
  label : String
  description : Option String
  detail : Option String
  picked : Option Bool
  id : Option String
deriving DecidableEq, Repr

/-- `items.forEach((item, i) => ...)` / `items.map((item, i) => ...)`:
the elements of a list paired with their indices, starting at `n`. -/
def enumF (n : Nat) : List α → List (Nat × α)
  | [] => []
  | x :: xs => (n, x) :: enumF (n + 1) xs

/-- `Map.get(handle)` on the handle table. -/
def mapLookup (m : List (Nat × QPItem)) (h : Nat) : Option QPItem :=
  (m.find? fun kv => kv.1 == h).map fun kv => kv.2

/-- The transform applied to one item at handle `i` when staging the item
list: only label, description, handle, detail, picked are carried over. -/
def transferOf (i : Nat) (it : QPItem) : TransferItem :=
  { label := it.label, description := it.description, handle := i
    detail := it.detail, picked := it.picked }

/-- `items.map((item, i) => ({ label, description, handle: i, detail,
picked }))`. -/
def toTransferList (items : List QPItem) : List TransferItem :=
  (enumF 0 items).map fun p => transferOf p.1 p.2

/-- State of one `ExtHostQuickPick` session: the base session, the stored
item list, and the `_handlesToItems` map. -/
structure QuickPickState where
  base : Session
  items : List QPItem
  handlesToItems : List (Nat × QPItem)
deriving DecidableEq, Repr

/-- `set items`: store the new list, clear and rebuild `_handlesToItems`
with each item keyed by its array index, and stage the transformed view via
`update({ items: ... })`. -/
def QuickPickState.setItems (qp : QuickPickState) (items : List QPItem) :
    QuickPickState :=
  { qp with
    items := items
    handlesToItems := enumF 0 items
    base := qp.base.update [("items", Value.items (toTransferList items))] }

/-- `_fireDidSelectionChange(handles)`: translate each handle through the
current handle table (`Map.get`, `undefined` when absent) and fire the
resulting list. -/
def QuickPickState.fireDidSelectionChange (qp : QuickPickState)
    (handles : List Nat) : List (Option QPItem) :=
  handles.map fun h => mapLookup qp.handlesToItems h

/-! ### ExtHostQuickOpen: one-shot flows and global callback slots -/

/-- The `_onDidSelectItem` slot as installed by a `showQuickPick`
invocation: the invocation is identified by `tag`, and the closure captures
the item list in effect when the handler was installed. -/
structure SelHandler where
  tag : Nat
  snapshot : List QPItem
deriving DecidableEq, Repr

/-- Mutable fields of `ExtHostQuickOpen` relevant here: the global
`_onDidSelectItem` slot and the global `_validateInput` slot. -/
structure QuickOpenState where
  onDidSelectItem : Option SelHandler
  validateInput : Option (String → Option String)

/-- Calls issued to the `MainThreadQuickOpenShape` proxy. -/
inductive ProxyCall where
  | showWidget
  | setItems (items : List TransferItem)
  | setError (err : String)
  | inputCall (hasValidator : Bool)
deriving DecidableEq, Repr

/-- How the `TPromise.any([quickPickWidget, itemsPromise])` race resolves:
key `0` is the widget, key `1` the item promise. -/
inductive RaceWinner where
  | widget
  | items
deriving DecidableEq, Repr

/-- How the host resolves the `$show` promise: a single handle, a handle
array (multi-select), or `undefined`. -/
inductive WidgetOutcome where
  | one (h : Nat)
  | many (hs : List Nat)
  | cancel
deriving DecidableEq, Repr

/-- The caller-visible resolution of `showQuickPick`. -/
inductive PickOutcome where
  | single (it : Option QPItem)
  | multi (its : List (Option QPItem))
  | cancelled
deriving Repr

/-- The synchronous prefix of `showQuickPick`: clear the `_onDidSelectItem`
slot left by the previous invocation, then call `$show(options)`. -/
def showQuickPickStart (st : QuickOpenState) :
    QuickOpenState × List ProxyCall :=
  ({ st with onDidSelectItem := none }, [ProxyCall.showWidget])

/-- The continuation of `showQuickPick` run when the item promise resolves
first (race key `1`) and succeeds: install the selection handler when the
caller supplied `options.onDidSelectItem`, send `$setItems`, then map the
widget resolution back through the item snapshot (`items[handle]`). -/
def showQuickPickOnItems (st : QuickOpenState) (tag : Nat)
    (hasHandler : Bool) (items : List QPItem) (widget : WidgetOutcome) :
    QuickOpenState × List ProxyCall × PickOutcome :=
  let st := if hasHandler
    then { st with onDidSelectItem := some { tag := tag, snapshot := items } }
    else st
  let res := match widget with
    | WidgetOutcome.one h => PickOutcome.single (items.get? h)
    | WidgetOutcome.many hs => PickOutcome.multi (hs.map fun h => items.get? h)
    | WidgetOutcome.cancel => PickOutcome.cancelled
  (st, [ProxyCall.setItems (toTransferList items)], res)

/-- One whole `showQuickPick` invocation, parameterised by the outcomes of
its asynchronous collaborators: the race winner, the item promise's result
(`Except` for a rejected supplier) and the widget resolution.  Returns the
final slot state, the proxy calls in order, and the caller's result
(`Except.error` when the returned promise rejects). -/
def showQuickPickFull (st : QuickOpenState) (tag : Nat) (hasHandler : Bool)
    (winner : RaceWinner) (itemsResult : Except String (List QPItem))
    (widget : WidgetOutcome) :
    QuickOpenState × List ProxyCall × Except String PickOutcome :=
  let start := showQuickPickStart st
  match winner with
  | RaceWinner.widget => (start.1, start.2, Except.ok PickOutcome.cancelled)
  | RaceWinner.items =>
    match itemsResult with
    | Except.error err =>
        (start.1, start.2 ++ [ProxyCall.setError err], Except.error err)
    | Except.ok items =>
        let k := showQuickPickOnItems start.1 tag hasHandler items widget
        (k.1, start.2 ++ k.2.1, Except.ok k.2.2)

/-- `$onItemSelected(handle)`: when the slot is filled, the installed
closure runs `options.onDidSelectItem(items[handle])`.  The result records
which invocation's callback was run and with which item; `none` means the
notification was dropped. -/
def onItemSelectedReq (st : QuickOpenState) (handle : Nat) :
    Option (Nat × Option QPItem) :=
  st.onDidSelectItem.map fun h => (h.tag, h.snapshot.get? handle)

/-- `showInput(options)`: overwrite the global `_validateInput` slot with
the request's validator (or `undefined`), then call
`$input(options, hasValidator)`. -/
def showInput (st : QuickOpenState)
    (validator : Option (String → Option String)) :
    QuickOpenState × ProxyCall :=
  ({ st with validateInput := validator },
   ProxyCall.inputCall validator.isSome)

/-- `$validateInput(input)`: invoke the currently installed validator, or
return `undefined` when none is installed. -/
def validateInputReq (st : QuickOpenState) (input : String) :
    Option (Option String) :=
  match st.validateInput with
  | some f => some (f input)
  | none => none

/-! ### Helper lemmas about the pending-update association list -/

theorem lookupProp_setKey (u : List (String × Value)) (k kq : String)
    (v : Value) :
    lookupProp (setKey u k v) kq = if kq = k then some v else lookupProp u kq := by
  unfold lookupProp setKey
  induction u with
  | nil =>
    simp only [List.filter_nil, List.nil_append, List.find?]
    by_cases h : kq = k
    · subst h; simp
    · have : (k == kq) = false := by
        simp [beq_iff_eq]
        exact fun he => h he.symm
      simp [h, this, List.find?]
  | cons a u ih =>
    by_cases ha : a.1 = k
    · have : (a.1 != k) = false := by simp [bne, ha]
      simp only [List.filter_cons, this, Bool.false_eq_true, if_false]
      rw [ih]
      by_cases h : kq = k
      · simp [h]
      · have : (a.1 == kq) = false := by
          simp [beq_iff_eq, ha]
          exact fun he => h he.symm
        simp [h, List.find?, this]
    · have : (a.1 != k) = true := by simp [bne, ha]
      simp only [List.filter_cons, this, if_true]
      by_cases hq : a.1 = kq
      · have hb : (a.1 == kq) = true := by simp [beq_iff_eq, hq]
        have : kq ≠ k := fun he => ha (by rw [hq, he])
        simp [List.find?_cons, hb, this]
      · have hb : (a.1 == kq) = false := by simp [beq_iff_eq, hq]
        simp only [List.cons_append, List.find?_cons, hb]
        rw [ih]

theorem lookupProp_assignProps (ws u : List (String × Value)) (k : String) :
    lookupProp (assignProps u ws) k =
      match ws.reverse.find? (fun kv => kv.1 == k) with
      | some kv => some kv.2
      | none => lookupProp u k := by
  induction ws generalizing u with
  | nil => simp [assignProps]
  | cons a ws ih =>
    show lookupProp (assignProps (setKey u a.1 a.2) ws) k = _
    rw [ih]
    rw [List.reverse_cons, List.find?_append]
    cases hfind : ws.reverse.find? (fun kv => kv.1 == k) with
    | some kv => simp [hfind, Option.orElse]
    | none =>
      simp only [hfind, Option.orElse, Option.none_orElse]
      rw [lookupProp_setKey]
      by_cases h : k = a.1
      · have : (a.1 == k) = true := by simp [beq_iff_eq, h.symm]
        simp [h, List.find?, this]
      · have : (a.1 == k) = false := by
          simp [beq_iff_eq]
          exact fun he => h he.symm
        simp [h, List.find?, this]

theorem lookupProp_single_assign (u : List (String × Value)) (k : String)
    (v : Value) (kq : String) :
    lookupProp (assignProps u [(k, v)]) kq =
      if kq = k then some v else lookupProp u kq := by
  show lookupProp (setKey u k v) kq = _
  exact lookupProp_setKey u k kq v

/-! ### Helper lemmas about the session state machine -/

theorem update_of_disposed (s : Session) (props : List (String × Value))
    (hdis : s.disposed = true) : s.update props = s := by
  simp [Session.update, hdis]

theorem update_eq_of_visible (s : Session) (props : List (String × Value))
    (hdis : s.disposed = false) (hvis : s.visible = true) :
    s.update props =
      { s with
        pendingUpdate := { s.pendingUpdate with
          props := assignProps s.pendingUpdate.props props }
        timerPending := true } := by
  simp [Session.update, hdis, hvis]

theorem update_eq_of_invisible (s : Session) (props : List (String × Value))
    (hdis : s.disposed = false) (hvis : s.visible = false) :
    s.update props =
      { s with
        pendingUpdate := { s.pendingUpdate with
          props := assignProps s.pendingUpdate.props props } } := by
  simp [Session.update, hdis, hvis]

theorem update_pendingProps (s : Session) (props : List (String × Value))
    (hdis : s.disposed = false) :
    (s.update props).pendingUpdate.props =
      assignProps s.pendingUpdate.props props := by
  unfold Session.update
  simp only [hdis, Bool.false_eq_true, if_false]
  split <;> rfl

theorem run_append (s : Session) (xs ys : List Op) :
    run s (xs ++ ys) =
      ((run (run s xs).1 ys).1, (run s xs).2 ++ (run (run s xs).1 ys).2) := by
  induction xs generalizing s with
  | nil => simp [run]
  | cons x xs ih =>
    simp only [List.cons_append, run, List.append_eq]
    rw [ih]
    simp [List.append_assoc]

/-- Running only setter events on a visible, non-disposed session produces no
outbound effects; local flags track the last writes, the pending buffer
accumulates the writes by `Object.assign`, and a flush timer is armed as soon
as one setter has run. -/
theorem run_setters (ops : List Op) (s : Session)
    (hvis : s.visible = true) (hdis : s.disposed = false)
    (hset : ∀ op ∈ ops, (opWrite op).isSome) :
    (run s ops).2 = [] ∧
    (run s ops).1.visible = true ∧
    (run s ops).1.disposed = false ∧
    (run s ops).1.id = s.id ∧
    (run s ops).1.pendingUpdate.id = s.pendingUpdate.id ∧
    (run s ops).1.pendingUpdate.props =
      assignProps s.pendingUpdate.props (writesOf ops) ∧
    (run s ops).1.timerPending = (s.timerPending || !ops.isEmpty) := by
  induction ops generalizing s with
  | nil => simp [run, assignProps, writesOf, hvis, hdis]
  | cons op ops ih =>
    have hop : (opWrite op).isSome := hset op (by simp)
    have hrest : ∀ op ∈ ops, (opWrite op).isSome := by
      intro o ho; exact hset o (List.mem_cons_of_mem _ ho)
    cases op with
    | setEnabled b =>
      have hstep : step s (Op.setEnabled b) =
          ({ s with
              enabled := b,
              pendingUpdate :=
                { id := s.pendingUpdate.id,
                  props := assignProps s.pendingUpdate.props
                      [("enabled", Value.bool b)] },
              timerPending := true }, []) := by
        show (Session.update { s with enabled := b }
          [("enabled", Value.bool b)], []) = _
        rw [update_eq_of_visible { s with enabled := b }
          [("enabled", Value.bool b)] hdis hvis]
      simp only [run, hstep]
      obtain ⟨h1, h2, h3, h4, h5, h6, h7⟩ :=
        ih { s with
              enabled := b,
              pendingUpdate :=
                { id := s.pendingUpdate.id,
                  props := assignProps s.pendingUpdate.props
                      [("enabled", Value.bool b)] },
              timerPending := true } hvis hdis hrest
      refine ⟨by simp [h1], h2, h3, h4, h5, ?_, ?_⟩
      · rw [h6]
        have hw : writesOf (Op.setEnabled b :: ops) =
            ("enabled", Value.bool b) :: writesOf ops := by
          simp [writesOf, opWrite]
        rw [hw]
        rfl
      · rw [h7]; simp
    | setBusy b =>
      have hstep : step s (Op.setBusy b) =
          ({ s with
              busy := b,
              pendingUpdate :=
                { id := s.pendingUpdate.id,
                  props := assignProps s.pendingUpdate.props
                      [("busy", Value.bool b)] },
              timerPending := true }, []) := by
        show (Session.update { s with busy := b }
          [("busy", Value.bool b)], []) = _
        rw [update_eq_of_visible { s with busy := b }
          [("busy", Value.bool b)] hdis hvis]
      simp only [run, hstep]
      obtain ⟨h1, h2, h3, h4, h5, h6, h7⟩ :=
        ih { s with
              busy := b,
              pendingUpdate :=
                { id := s.pendingUpdate.id,
                  props := assignProps s.pendingUpdate.props
                      [("busy", Value.bool b)] },
              timerPending := true } hvis hdis hrest
      refine ⟨by simp [h1], h2, h3, h4, h5, ?_, ?_⟩
      · rw [h6]
        have hw : writesOf (Op.setBusy b :: ops) =
            ("busy", Value.bool b) :: writesOf ops := by
          simp [writesOf, opWrite]
        rw [hw]
        rfl
      · rw [h7]; simp
    | «show» => simp [opWrite] at hop
    | hide => simp [opWrite] at hop
    | fireTimer => simp [opWrite] at hop
    | dispose => simp [opWrite] at hop

/-- Every event leaves a disposed session disposed and produces no outbound
effect. -/
theorem step_of_disposed (s : Session) (op : Op) (hdis : s.disposed = true) :
    (step s op).1.disposed = true ∧ (step s op).2 = [] := by
  cases op with
  | setEnabled b =>
    rw [show step s (Op.setEnabled b) =
      (Session.update { s with enabled := b } [("enabled", Value.bool b)], [])
      from rfl]
    rw [update_of_disposed { s with enabled := b } _ hdis]
    exact ⟨hdis, rfl⟩
  | setBusy b =>
    rw [show step s (Op.setBusy b) =
      (Session.update { s with busy := b } [("busy", Value.bool b)], [])
      from rfl]
    rw [update_of_disposed { s with busy := b } _ hdis]
    exact ⟨hdis, rfl⟩
  | «show» =>
    rw [show step s Op.show =
      (Session.update { s with visible := true } [("visible", Value.bool true)],
        []) from rfl]
    rw [update_of_disposed { s with visible := true } _ hdis]
    exact ⟨hdis, rfl⟩
  | hide =>
    rw [show step s Op.hide =
      (Session.update { s with visible := false }
        [("visible", Value.bool false)], []) from rfl]
    rw [update_of_disposed { s with visible := false } _ hdis]
    exact ⟨hdis, rfl⟩
  | fireTimer =>
    show ((s.fireTimer).1.disposed = true ∧ (s.fireTimer).2 = [])
    unfold Session.fireTimer
    split
    · exact ⟨hdis, rfl⟩
    · simp [hdis]
  | dispose =>
    show ((s.dispose).1.disposed = true ∧ (s.dispose).2 = [])
    unfold Session.dispose
    simp [hdis]

/-- A disposed session never produces another outbound effect, whatever
events arrive. -/
theorem run_of_disposed (ops : List Op) (s : Session)
    (hdis : s.disposed = true) : (run s ops).2 = [] := by
  induction ops generalizing s with
  | nil => rfl
  | cons op ops ih =>
    obtain ⟨h1, h2⟩ := step_of_disposed s op hdis
    simp only [run, h2, List.nil_append]
    exact ih _ h1

/-! ### Helper lemmas about the handle table -/

theorem mapLookup_enumF (xs : List QPItem) (n h : Nat) :
    mapLookup (enumF n xs) h =
      if h < n then none else xs.get? (h - n) := by
  induction xs generalizing n with
  | nil =>
    simp only [enumF, mapLookup, List.find?_nil, Option.map_none]
    split <;> simp
  | cons x xs ih =>
    have hcons : enumF n (x :: xs) = (n, x) :: enumF (n + 1) xs := rfl
    rw [hcons]
    by_cases hn : n = h
    · subst hn
      have hfind : mapLookup ((n, x) :: enumF (n + 1) xs) n = some x := by
        unfold mapLookup
        rw [List.find?_cons_of_pos _ (by simp)]
        rfl
      rw [hfind]
      have h1 : ¬ n < n := Nat.lt_irrefl n
      simp [h1, Nat.sub_self]
    · have hskip : mapLookup ((n, x) :: enumF (n + 1) xs) h =
          mapLookup (enumF (n + 1) xs) h := by
        unfold mapLookup
        rw [List.find?_cons_of_neg _ (by simp [hn])]
      rw [hskip, ih]
      by_cases h1 : h < n
      · have h2 : h < n + 1 := Nat.lt_succ_of_lt h1
        simp [h1, h2]
      · have hgt : n < h := Nat.lt_of_le_of_ne (Nat.le_of_not_lt h1) hn
        have h2 : ¬ h < n + 1 := by omega
        simp only [h2, if_false, h1, if_false]
        obtain ⟨d, hd⟩ : ∃ d, h - n = d + 1 := ⟨h - n - 1, by omega⟩
        have hd2 : h - (n + 1) = d := by omega
        rw [hd, hd2]
        rfl

/-! ### Claim theorems -/

/-- C1: for every nonempty sequence of property setter calls on a visible,
non-disposed session with a freshly reset pending buffer, the scheduling
turn (the setters followed by the deferred flush) produces exactly one
outbound `$createOrUpdate` message; the message carries the session id and,
for each field, exactly the last value written to it in that turn; and the
pending-update buffer is reset to contain only the session id after the
flush. -/
theorem c1_batching_single_update (s : Session) (ops : List Op)
    (hvis : s.visible = true) (hdis : s.disposed = false)
    (hpend : s.pendingUpdate = { id := s.id, props := [] })
    (hne : ops ≠ []) (hset : ∀ op ∈ ops, (opWrite op).isSome) :
    ∃ u, (run s (ops ++ [Op.fireTimer])).2 = [Effect.createOrUpdate u] ∧
      u.id = s.id ∧
      (∀ k, lookupProp u.props k = lastWrite ops k) ∧
      (run s (ops ++ [Op.fireTimer])).1.pendingUpdate =
        { id := s.id, props := [] } := by
  rw [run_append]
  obtain ⟨h1, h2, h3, h4, h5, h6, h7⟩ := run_setters ops s hvis hdis hset
  set s1 := (run s ops).1 with hs1
  have htimer : s1.timerPending = true := by
    rw [h7]
    cases ops with
    | nil => exact absurd rfl hne
    | cons a l => simp
  have hfire : run s1 [Op.fireTimer] =
      ({ s1 with
          timerPending := false,
          pendingUpdate := { id := s1.id, props := [] } },
        [Effect.createOrUpdate s1.pendingUpdate]) := by
    show (s1.fireTimer.1, s1.fireTimer.2 ++ []) = _
    unfold Session.fireTimer
    simp [htimer, h3]
  refine ⟨s1.pendingUpdate, ?_, ?_, ?_, ?_⟩
  · simp [h1, hfire]
  · rw [h5, hpend]
  · intro k
    have hprops : s1.pendingUpdate.props =
        assignProps [] (writesOf ops) := by
      rw [h6, hpend]
    rw [hprops, lookupProp_assignProps]
    cases hf : (writesOf ops).reverse.find? (fun kv => kv.1 == k) with
    | some kv => simp [lastWrite, hf]
    | none => simp [lastWrite, hf, lookupProp]
  · rw [hfire]
    simp [h4]

/-- Witness for C1 at a concrete run: three setter calls in one turn on a
fresh visible session. -/
theorem c1_batching_single_update_witness :
    (({ Session.fresh 1 with visible := true } : Session).visible = true ∧
      ([Op.setEnabled false, Op.setBusy true, Op.setEnabled true] : List Op)
        ≠ [] ∧
      ∀ op ∈ ([Op.setEnabled false, Op.setBusy true, Op.setEnabled true] :
        List Op), (opWrite op).isSome) ∧
    (∃ u, (run { Session.fresh 1 with visible := true }
        ([Op.setEnabled false, Op.setBusy true, Op.setEnabled true] ++
          [Op.fireTimer])).2 = [Effect.createOrUpdate u] ∧
      u.id = ({ Session.fresh 1 with visible := true } : Session).id ∧
      (∀ k, lookupProp u.props k =
        lastWrite [Op.setEnabled false, Op.setBusy true, Op.setEnabled true]
          k) ∧
      (run { Session.fresh 1 with visible := true }
        ([Op.setEnabled false, Op.setBusy true, Op.setEnabled true] ++
          [Op.fireTimer])).1.pendingUpdate =
        { id := ({ Session.fresh 1 with visible := true } : Session).id,
          props := [] }) :=
  ⟨⟨rfl, by decide, by decide⟩,
    c1_batching_single_update { Session.fresh 1 with visible := true }
      [Op.setEnabled false, Op.setBusy true, Op.setEnabled true]
      rfl rfl rfl (by decide) (by decide)⟩

/-- C2 (counterexample): a fresh session is shown, its flush fires, and
`hide()` is then called on the now visible session - a transition away from
visible.  Yet the whole trace delivers no update message containing
`visible = false`: the only message sent carries `visible = true`, the
session ends with no flush timer armed, and `visible = false` sits
undelivered in the pending buffer. -/
theorem c2_counterexample :
    ((run (Session.fresh 1)
        [Op.show, Op.fireTimer, Op.hide, Op.fireTimer]).2.countP
      (fun e => match e with
        | Effect.createOrUpdate u =>
            lookupProp u.props "visible" == some (Value.bool false)
        | _ => false) = 0) ∧
    (run (Session.fresh 1)
      [Op.show, Op.fireTimer, Op.hide, Op.fireTimer]).2 =
        [Effect.createOrUpdate { id := 1, props := [("visible",
          Value.bool true)] }] ∧
    (run (Session.fresh 1)
      [Op.show, Op.fireTimer, Op.hide, Op.fireTimer]).1.timerPending =
        false ∧
    lookupProp (run (Session.fresh 1)
      [Op.show, Op.fireTimer, Op.hide, Op.fireTimer]).1.pendingUpdate.props
      "visible" = some (Value.bool false) := by
  refine ⟨?_, ?_, ?_, ?_⟩ <;> rfl

/-- C2 (amended): `hide()` stages `visible = false` into the pending buffer
and clears the local visibility flag, but never itself schedules a flush -
even when it is a transition away from visible - because the visibility flag
is cleared before the flush gate in `update` is checked.  The staged
`visible = false` reaches the host only when a flush timer was already
pending at the time of the `hide()` call. -/
theorem c2_hide_stages_but_never_schedules (s : Session)
    (hdis : s.disposed = false) :
    (step s Op.hide).2 = [] ∧
    (step s Op.hide).1.timerPending = s.timerPending ∧
    (step s Op.hide).1.visible = false ∧
    lookupProp (step s Op.hide).1.pendingUpdate.props "visible" =
      some (Value.bool false) ∧
    (s.timerPending = true →
      ∃ u, (run s [Op.hide, Op.fireTimer]).2 = [Effect.createOrUpdate u] ∧
        lookupProp u.props "visible" = some (Value.bool false)) := by
  have hstep : step s Op.hide =
      ({ s with
          visible := false,
          pendingUpdate :=
            { id := s.pendingUpdate.id,
              props := assignProps s.pendingUpdate.props
                  [("visible", Value.bool false)] } }, []) := by
    show (Session.update { s with visible := false }
      [("visible", Value.bool false)], []) = _
    rw [update_eq_of_invisible { s with visible := false }
      [("visible", Value.bool false)] hdis rfl]
  refine ⟨by rw [hstep], by rw [hstep], by rw [hstep], ?_, ?_⟩
  · rw [hstep]
    show lookupProp
      (assignProps s.pendingUpdate.props [("visible", Value.bool false)])
      "visible" = some (Value.bool false)
    rw [lookupProp_single_assign]
    simp
  · intro htimer
    refine ⟨{ id := s.pendingUpdate.id,
              props := assignProps s.pendingUpdate.props
                [("visible", Value.bool false)] }, ?_, ?_⟩
    · show (step s Op.hide).2 ++
        ((step (step s Op.hide).1 Op.fireTimer).2 ++ []) = _
      rw [hstep]
      show [] ++ (Session.fireTimer _).2 ++ [] = _
      unfold Session.fireTimer
      simp [htimer, hdis]
    · rw [lookupProp_single_assign]
      simp

/-- Witness for C2 (amended) at a concrete session: visible with a pending
flush timer, as left by a property write in the same turn. -/
theorem c2_hide_stages_but_never_schedules_witness :
    (({ Session.fresh 2 with visible := true, timerPending := true } :
        Session).disposed = false) ∧
    ((step { Session.fresh 2 with visible := true, timerPending := true }
        Op.hide).2 = [] ∧
      (step { Session.fresh 2 with visible := true, timerPending := true }
        Op.hide).1.timerPending =
        ({ Session.fresh 2 with visible := true, timerPending := true } :
          Session).timerPending ∧
      (step { Session.fresh 2 with visible := true, timerPending := true }
        Op.hide).1.visible = false ∧
      lookupProp (step { Session.fresh 2 with
        visible := true, timerPending := true }
        Op.hide).1.pendingUpdate.props "visible" =
        some (Value.bool false) ∧
      (({ Session.fresh 2 with visible := true, timerPending := true } :
          Session).timerPending = true →
        ∃ u, (run { Session.fresh 2 with
            visible := true, timerPending := true }
            [Op.hide, Op.fireTimer]).2 = [Effect.createOrUpdate u] ∧
          lookupProp u.props "visible" = some (Value.bool false))) :=
  ⟨rfl, c2_hide_stages_but_never_schedules
    { Session.fresh 2 with visible := true, timerPending := true } rfl⟩

/-- C3 (counterexample): disposing a fresh session twice fires zero
`onDidHide` notifications, not exactly one - `dispose` disposes the hide
emitter without firing it. -/
theorem c3_counterexample :
    ¬ (((run (Session.fresh 1) [Op.dispose, Op.dispose]).2.countP
      (fun e => match e with
        | Effect.hiddenFired _ => true
        | _ => false)) = 1) := by
  decide

/-- C3 (amended): disposing a non-disposed session twice produces exactly
one host `$dispose` call, exactly one unregistration from the owning
registry, and zero `onDidHide` notifications (the emitter is disposed, never
fired); the flush timer is cancelled, and the second `dispose()` is a no-op
that changes nothing and emits nothing. -/
theorem c3_dispose_twice (s : Session) (hdis : s.disposed = false) :
    (run s [Op.dispose, Op.dispose]).2 =
      [Effect.unregister s.id, Effect.disposeCall s.id] ∧
    ((run s [Op.dispose, Op.dispose]).2.countP
      (fun e => match e with
        | Effect.disposeCall _ => true
        | _ => false)) = 1 ∧
    ((run s [Op.dispose, Op.dispose]).2.countP
      (fun e => match e with
        | Effect.unregister _ => true
        | _ => false)) = 1 ∧
    ((run s [Op.dispose, Op.dispose]).2.countP
      (fun e => match e with
        | Effect.hiddenFired _ => true
        | _ => false)) = 0 ∧
    (run s [Op.dispose, Op.dispose]).1.timerPending = false ∧
    step (step s Op.dispose).1 Op.dispose = ((step s Op.dispose).1, []) := by
  have hstep : step s Op.dispose =
      ({ s with disposed := true, timerPending := false },
        [Effect.unregister s.id, Effect.disposeCall s.id]) := by
    show s.dispose = _
    unfold Session.dispose
    simp [hdis]
  have hstep2 : step ({ s with disposed := true, timerPending := false } :
      Session) Op.dispose =
      (({ s with disposed := true, timerPending := false } : Session),
        []) := by
    show Session.dispose _ = _
    unfold Session.dispose
    simp
  have hrun : run s [Op.dispose, Op.dispose] =
      (({ s with disposed := true, timerPending := false } : Session),
        [Effect.unregister s.id, Effect.disposeCall s.id]) := by
    show ((run (step s Op.dispose).1 [Op.dispose]).1,
      (step s Op.dispose).2 ++ _) = _
    rw [hstep]
    show ((step _ Op.dispose).1,
      [Effect.unregister s.id, Effect.disposeCall s.id] ++
        ((step _ Op.dispose).2 ++ [])) = _
    rw [hstep2]
    simp
  refine ⟨by rw [hrun], ?_, ?_, ?_, by rw [hrun], ?_⟩
  · rw [hrun]; rfl
  · rw [hrun]; rfl
  · rw [hrun]; rfl
  · rw [hstep, hstep2]

/-- Witness for C3 (amended) at a fresh session. -/
theorem c3_dispose_twice_witness :
    ((Session.fresh 3).disposed = false) ∧
    ((run (Session.fresh 3) [Op.dispose, Op.dispose]).2 =
      [Effect.unregister 3, Effect.disposeCall 3] ∧
    ((run (Session.fresh 3) [Op.dispose, Op.dispose]).2.countP
      (fun e => match e with
        | Effect.disposeCall _ => true
        | _ => false)) = 1 ∧
    ((run (Session.fresh 3) [Op.dispose, Op.dispose]).2.countP
      (fun e => match e with
        | Effect.unregister _ => true
        | _ => false)) = 1 ∧
    ((run (Session.fresh 3) [Op.dispose, Op.dispose]).2.countP
      (fun e => match e with
        | Effect.hiddenFired _ => true
        | _ => false)) = 0 ∧
    (run (Session.fresh 3) [Op.dispose, Op.dispose]).1.timerPending =
      false ∧
    step (step (Session.fresh 3) Op.dispose).1 Op.dispose =
      ((step (Session.fresh 3) Op.dispose).1, [])) :=
  ⟨rfl, c3_dispose_twice (Session.fresh 3) rfl⟩

/-- C4 (counterexample): after `dispose()`, a property setter is not a
no-op on observable state: setting `enabled` to `false` on a disposed fresh
session still flips the locally cached `enabled` flag (read-after-write sees
the new value), though the session was created with `enabled = true`. -/
theorem c4_counterexample :
    (step (step (Session.fresh 1) Op.dispose).1 (Op.setEnabled false)).1.enabled
        = false ∧
    (Session.fresh 1).enabled = true := by
  exact ⟨rfl, rfl⟩

/-- C4 (amended): after `dispose()`, property setters still update the
locally cached value (synchronous read-after-write), but nothing is staged
into the pending buffer, the flush timer state is untouched, no effect is
emitted, and no `$createOrUpdate` message - indeed no outbound effect at
all - is ever produced by any further event sequence on the disposed
session. -/
theorem c4_disposed_setters_local_only (s : Session) (b : Bool)
    (ops : List Op) (hdis : s.disposed = true) :
    (step s (Op.setEnabled b)).1 = { s with enabled := b } ∧
    (step s (Op.setEnabled b)).2 = [] ∧
    (step s (Op.setBusy b)).1 = { s with busy := b } ∧
    (step s (Op.setBusy b)).2 = [] ∧
    (step s (Op.setEnabled b)).1.pendingUpdate = s.pendingUpdate ∧
    (step s (Op.setEnabled b)).1.timerPending = s.timerPending ∧
    (run s ops).2 = [] := by
  have h1 : step s (Op.setEnabled b) = ({ s with enabled := b }, []) := by
    show (Session.update { s with enabled := b } _, []) = _
    rw [update_of_disposed { s with enabled := b } _ hdis]
  have h2 : step s (Op.setBusy b) = ({ s with busy := b }, []) := by
    show (Session.update { s with busy := b } _, []) = _
    rw [update_of_disposed { s with busy := b } _ hdis]
  exact ⟨by rw [h1], by rw [h1], by rw [h2], by rw [h2], by rw [h1],
    by rw [h1], run_of_disposed ops s hdis⟩

/-- Witness for C4 (amended): a disposed fresh session, a setter write and
a later event sequence that would have flushed were the session alive. -/
theorem c4_disposed_setters_local_only_witness :
    ((step (Session.fresh 4) Op.dispose).1.disposed = true) ∧
    ((step (step (Session.fresh 4) Op.dispose).1 (Op.setEnabled false)).1 =
      { (step (Session.fresh 4) Op.dispose).1 with enabled := false } ∧
    (step (step (Session.fresh 4) Op.dispose).1 (Op.setEnabled false)).2 =
      [] ∧
    (step (step (Session.fresh 4) Op.dispose).1 (Op.setBusy false)).1 =
      { (step (Session.fresh 4) Op.dispose).1 with busy := false } ∧
    (step (step (Session.fresh 4) Op.dispose).1 (Op.setBusy false)).2 =
      [] ∧
    (step (step (Session.fresh 4) Op.dispose).1
      (Op.setEnabled false)).1.pendingUpdate =
      (step (Session.fresh 4) Op.dispose).1.pendingUpdate ∧
    (step (step (Session.fresh 4) Op.dispose).1
      (Op.setEnabled false)).1.timerPending =
      (step (Session.fresh 4) Op.dispose).1.timerPending ∧
    (run (step (Session.fresh 4) Op.dispose).1
      [Op.show, Op.setEnabled false, Op.fireTimer]).2 = []) :=
  ⟨rfl, c4_disposed_setters_local_only (step (Session.fresh 4) Op.dispose).1
    false [Op.show, Op.setEnabled false, Op.fireTimer] rfl⟩

/-- C5: on a non-disposed session, `show()` sets `visible = true` in local
state and stages `visible: true`; the deferred flush then sends exactly one
`$createOrUpdate` message which contains `visible: true`, carries the
pending-buffer id, and also delivers every property staged before the
`show()` call. -/
theorem c5_show_triggers_flush (s : Session) (hdis : s.disposed = false) :
    (step s Op.show).1.visible = true ∧
    lookupProp (step s Op.show).1.pendingUpdate.props "visible" =
      some (Value.bool true) ∧
    ∃ u, (run s [Op.show, Op.fireTimer]).2 = [Effect.createOrUpdate u] ∧
      u.id = s.pendingUpdate.id ∧
      lookupProp u.props "visible" = some (Value.bool true) ∧
      ∀ k, k ≠ "visible" →
        lookupProp u.props k = lookupProp s.pendingUpdate.props k := by
  have hstep : step s Op.show =
      ({ s with
          visible := true,
          pendingUpdate :=
            { id := s.pendingUpdate.id,
              props := assignProps s.pendingUpdate.props
                  [("visible", Value.bool true)] },
          timerPending := true }, []) := by
    show (Session.update { s with visible := true }
      [("visible", Value.bool true)], []) = _
    rw [update_eq_of_visible { s with visible := true }
      [("visible", Value.bool true)] hdis rfl]
  refine ⟨by rw [hstep], ?_, ?_⟩
  · rw [hstep]
    show lookupProp
      (assignProps s.pendingUpdate.props [("visible", Value.bool true)])
      "visible" = some (Value.bool true)
    rw [lookupProp_single_assign]
    simp
  · refine ⟨{ id := s.pendingUpdate.id,
              props := assignProps s.pendingUpdate.props
                [("visible", Value.bool true)] }, ?_, rfl, ?_, ?_⟩
    · show (step s Op.show).2 ++
        ((step (step s Op.show).1 Op.fireTimer).2 ++ []) = _
      rw [hstep]
      show [] ++ (Session.fireTimer _).2 ++ [] = _
      unfold Session.fireTimer
      simp [hdis]
    · rw [lookupProp_single_assign]
      simp
    · intro k hk
      rw [lookupProp_single_assign]
      simp [hk]

/-- Witness for C5: a session created and then shown without any prior
property writes; one message carrying `visible: true` goes out. -/
theorem c5_show_triggers_flush_witness :
    ((Session.fresh 5).disposed = false) ∧
    ((step (Session.fresh 5) Op.show).1.visible = true ∧
    lookupProp (step (Session.fresh 5) Op.show).1.pendingUpdate.props
      "visible" = some (Value.bool true) ∧
    ∃ u, (run (Session.fresh 5) [Op.show, Op.fireTimer]).2 =
        [Effect.createOrUpdate u] ∧
      u.id = (Session.fresh 5).pendingUpdate.id ∧
      lookupProp u.props "visible" = some (Value.bool true) ∧
      ∀ k, k ≠ "visible" →
        lookupProp u.props k =
          lookupProp (Session.fresh 5).pendingUpdate.props k) :=
  ⟨rfl, c5_show_triggers_flush (Session.fresh 5) rfl⟩

/-- C6: when the item-list promise of `showQuickPick` rejects, the error is
first reported to the host through `$setError` (after the initial `$show`
call, before anything else) and the very same error is then propagated to
the caller as the rejection of the returned promise. -/
theorem c6_rejected_items_propagate (st : QuickOpenState) (tag : Nat)
    (hasHandler : Bool) (err : String) (w : WidgetOutcome) :
    (showQuickPickFull st tag hasHandler RaceWinner.items
      (Except.error err) w).2.1 =
      [ProxyCall.showWidget, ProxyCall.setError err] ∧
    (showQuickPickFull st tag hasHandler RaceWinner.items
      (Except.error err) w).2.2 = Except.error err :=
  ⟨rfl, rfl⟩

/-- C7: assigning the `items` property replaces the entire stored list,
rebuilds the handle table so that looking up any handle gives exactly the
item at that index of the new list, and stages for the host the transformed
view in which each item carries only label, description, detail, picked and
its positional handle - the transform is insensitive to any other field of
the caller's item objects. -/
theorem c7_items_setter (qp : QuickPickState) (items : List QPItem)
    (hdis : qp.base.disposed = false) :
    (qp.setItems items).items = items ∧
    (∀ h, mapLookup (qp.setItems items).handlesToItems h = items.get? h) ∧
    lookupProp (qp.setItems items).base.pendingUpdate.props "items" =
      some (Value.items (toTransferList items)) ∧
    (∀ (i : Nat) (it : QPItem) (x : Option String),
      transferOf i { it with id := x } = transferOf i it) := by
  refine ⟨rfl, ?_, ?_, ?_⟩
  · intro h
    show mapLookup (enumF 0 items) h = items.get? h
    rw [mapLookup_enumF]
    simp
  · show lookupProp (qp.base.update
      [("items", Value.items (toTransferList items))]).pendingUpdate.props
      "items" = _
    rw [update_pendingProps _ _ hdis, lookupProp_single_assign]
    simp
  · intro i it x
    rfl

/-- Witness for C7: a quick pick with one item carrying an extra `id`
field; the staged view keeps only the transformed projection. -/
theorem c7_items_setter_witness :
    ((QuickPickState.mk (Session.fresh 7) [] []).base.disposed = false) ∧
    (((QuickPickState.mk (Session.fresh 7) [] []).setItems
        [{ label := "a", description := none, detail := none,
           picked := none, id := some "internal" }]).items =
      [{ label := "a", description := none, detail := none,
         picked := none, id := some "internal" }] ∧
    (∀ h, mapLookup ((QuickPickState.mk (Session.fresh 7) [] []).setItems
        [{ label := "a", description := none, detail := none,
           picked := none, id := some "internal" }]).handlesToItems h =
      ([{ label := "a", description := none, detail := none,
          picked := none, id := some "internal" }] :
        List QPItem).get? h) ∧
    lookupProp (((QuickPickState.mk (Session.fresh 7) [] []).setItems
        [{ label := "a", description := none, detail := none,
           picked := none, id := some "internal" }]).base.pendingUpdate.props)
      "items" =
      some (Value.items (toTransferList
        [{ label := "a", description := none, detail := none,
           picked := none, id := some "internal" }])) ∧
    (∀ (i : Nat) (it : QPItem) (x : Option String),
      transferOf i { it with id := x } = transferOf i it)) :=
  ⟨rfl, c7_items_setter (QuickPickState.mk (Session.fresh 7) [] [])
    [{ label := "a", description := none, detail := none,
       picked := none, id := some "internal" }] rfl⟩

/-- C8: after a new item list is assigned, a selection notification carrying
a handle that was valid only for the previous (longer) list resolves to no
item of the new list: the rebuilt handle table has no entry for it, and the
selection-change translation yields no item for that handle. -/
theorem c8_stale_handle_unmatched (qp : QuickPickState)
    (newItems : List QPItem) (h : Nat)
    (hwf : qp.handlesToItems = enumF 0 qp.items)
    (hvalid : h < qp.items.length)
    (hstale : newItems.length ≤ h) :
    mapLookup qp.handlesToItems h ≠ none ∧
    mapLookup (qp.setItems newItems).handlesToItems h = none ∧
    (qp.setItems newItems).fireDidSelectionChange [h] = [none] := by
  refine ⟨?_, ?_, ?_⟩
  · rw [hwf, mapLookup_enumF]
    have h0 : ¬ h < 0 := Nat.not_lt_zero h
    simp only [h0, if_false, Nat.sub_zero]
    intro hc
    exact absurd (List.get?_eq_none.mp hc) (Nat.not_le.mpr hvalid)
  · show mapLookup (enumF 0 newItems) h = none
    rw [mapLookup_enumF]
    simp
    exact hstale
  · show [mapLookup (enumF 0 newItems) h] = [none]
    rw [mapLookup_enumF]
    simp
    exact hstale

/-- Witness for C8: the previous list had two items (handles 0 and 1), the
new list has one; the stale handle 1 no longer resolves. -/
theorem c8_stale_handle_unmatched_witness :
    ((QuickPickState.mk (Session.fresh 8)
        [{ label := "eins", description := none, detail := none,
           picked := none, id := none },
         { label := "zwei", description := none, detail := none,
           picked := none, id := none }]
        (enumF 0
          [{ label := "eins", description := none, detail := none,
             picked := none, id := none },
           { label := "zwei", description := none, detail := none,
             picked := none, id := none }])).handlesToItems =
      enumF 0 (QuickPickState.mk (Session.fresh 8)
        [{ label := "eins", description := none, detail := none,
           picked := none, id := none },
         { label := "zwei", description := none, detail := none,
           picked := none, id := none }]
        (enumF 0
          [{ label := "eins", description := none, detail := none,
             picked := none, id := none },
           { label := "zwei", description := none, detail := none,
             picked := none, id := none }])).items ∧
      (1 : Nat) < 2 ∧
      ([{ label := "drei", description := none, detail := none,
          picked := none, id := none }] : List QPItem).length ≤ 1) ∧
    (mapLookup (QuickPickState.mk (Session.fresh 8)
        [{ label := "eins", description := none, detail := none,
           picked := none, id := none },
         { label := "zwei", description := none, detail := none,
           picked := none, id := none }]
        (enumF 0
          [{ label := "eins", description := none, detail := none,
             picked := none, id := none },
           { label := "zwei", description := none, detail := none,
             picked := none, id := none }])).handlesToItems 1 ≠ none ∧
    mapLookup ((QuickPickState.mk (Session.fresh 8)
        [{ label := "eins", description := none, detail := none,
           picked := none, id := none },
         { label := "zwei", description := none, detail := none,
           picked := none, id := none }]
        (enumF 0
          [{ label := "eins", description := none, detail := none,
             picked := none, id := none },
           { label := "zwei", description := none, detail := none,
             picked := none, id := none }])).setItems
        [{ label := "drei", description := none, detail := none,
           picked := none, id := none }]).handlesToItems 1 = none ∧
    ((QuickPickState.mk (Session.fresh 8)
        [{ label := "eins", description := none, detail := none,
           picked := none, id := none },
         { label := "zwei", description := none, detail := none,
           picked := none, id := none }]
        (enumF 0
          [{ label := "eins", description := none, detail := none,
             picked := none, id := none },
           { label := "zwei", description := none, detail := none,
             picked := none, id := none }])).setItems
        [{ label := "drei", description := none, detail := none,
           picked := none, id := none }]).fireDidSelectionChange [1] =
      [none]) :=
  ⟨⟨rfl, by decide, by decide⟩,
    c8_stale_handle_unmatched _ _ 1 rfl (by decide) (by decide)⟩

/-- C9: the validator slot is global to the extension instance: a second
`showInput` call overwrites it with the second request's validator (or
clears it), after which `$validateInput` consults only the most recently
installed validator; the host is told whether that latest request has one. -/
theorem c9_single_validator_slot (st : QuickOpenState)
    (v1 v2 : Option (String → Option String)) (input : String) :
    (showInput (showInput st v1).1 v2).1.validateInput = v2 ∧
    validateInputReq (showInput (showInput st v1).1 v2).1 input =
      (match v2 with
        | some f => some (f input)
        | none => none) ∧
    (showInput (showInput st v1).1 v2).2 = ProxyCall.inputCall v2.isSome := by
  refine ⟨rfl, ?_, rfl⟩
  cases v2 <;> rfl

/-- C10: a second `showQuickPick` invocation first clears the global
selection-handler slot installed by the first invocation; a
`$onItemSelected` notification arriving after that point is dropped while
the slot is empty, and once the second invocation's items resolve it can
only be delivered to the second invocation's callback, never the first
one's. -/
theorem c10_stale_selection_handler (st : QuickOpenState) (t1 t2 : Nat)
    (items1 items2 : List QPItem) (hh2 : Bool) (handle : Nat)
    (w1 w2 : WidgetOutcome) (hne : t1 ≠ t2) :
    (showQuickPickOnItems (showQuickPickStart st).1 t1 true items1
        w1).1.onDidSelectItem = some { tag := t1, snapshot := items1 } ∧
    onItemSelectedReq
      (showQuickPickStart
        (showQuickPickOnItems (showQuickPickStart st).1 t1 true items1
          w1).1).1 handle = none ∧
    (∀ d, onItemSelectedReq
        (showQuickPickOnItems
          (showQuickPickStart
            (showQuickPickOnItems (showQuickPickStart st).1 t1 true items1
              w1).1).1 t2 hh2 items2 w2).1 handle = some d →
      d.1 ≠ t1) := by
  refine ⟨rfl, rfl, ?_⟩
  intro d hd
  cases hh2 with
  | false =>
    have hd2 : (none : Option (Nat × Option QPItem)) = some d := hd
    exact absurd hd2.symm (by simp)
  | true =>
    have hd2 : some ((t2, items2.get? handle) : Nat × Option QPItem) =
      some d := hd
    have hdd : d = (t2, items2.get? handle) := (Option.some.inj hd2).symm
    rw [hdd]
    exact fun hc => hne hc.symm

/-- Witness for C10: two concrete invocations with distinct tags; the
notification is dropped between them and afterwards can only reach the
second callback. -/
theorem c10_stale_selection_handler_witness :
    ((1 : Nat) ≠ 2) ∧
    ((showQuickPickOnItems
        (showQuickPickStart (QuickOpenState.mk none none)).1 1 true []
        WidgetOutcome.cancel).1.onDidSelectItem =
      some { tag := 1, snapshot := [] } ∧
    onItemSelectedReq
      (showQuickPickStart
        (showQuickPickOnItems
          (showQuickPickStart (QuickOpenState.mk none none)).1 1 true []
          WidgetOutcome.cancel).1).1 0 = none ∧
    (∀ d, onItemSelectedReq
        (showQuickPickOnItems
          (showQuickPickStart
            (showQuickPickOnItems
              (showQuickPickStart (QuickOpenState.mk none none)).1 1 true []
              WidgetOutcome.cancel).1).1 2 true [] WidgetOutcome.cancel).1
        0 = some d →
      d.1 ≠ 1)) :=
  ⟨by decide, c10_stale_selection_handler (QuickOpenState.mk none none)
    1 2 [] [] true 0 WidgetOutcome.cancel WidgetOutcome.cancel (by decide)⟩

end QuickInput
